import Mathlib

/-!
Verification of the cluster/host lifecycle orchestration subsystem of
compass-core: a shallow embedding of `compass/actions/delete.py` and of the
Editability Guard of `compass/db/api/cluster.py`, together with theorems about
lock discipline, write ordering, failure marking and frame conditions.

The entity store primitives (`update_cluster_host_state`, `update_host_state`,
`update_cluster_state`, `update_cluster_host`, `util.ActionHelper.*`,
`util.lock`) live outside the provided sources; they are modelled from the
spec (see the doc comments of the individual definitions).  The orchestration
entry points themselves (`delete_cluster`, `delete_cluster_host`,
`delete_host`), the guard (`is_cluster_editable`, `_conditional_exception`),
and the in-src store operations `update_cluster` and `del_cluster` — the
former invoked by `delete_cluster` at its reinstall-flag step, guard
included — are translated from the source files.
-/

/-- Lifecycle state enum shared by Cluster, Host and ClusterHost. -/
inductive EntState where
  | UNINITIALIZED
  | INSTALLING
  | SUCCESSFUL
  | ERROR
  deriving DecidableEq, Repr

/-- A Cluster row: `models.Cluster` as used by the orchestration code. -/
structure Cluster where
  id : Nat
  state : EntState
  reinstall_distributed_system : Bool
  creator_id : Nat
  adapter_id : Nat
  deriving DecidableEq, Repr

/-- A Host row: `models.Host` as used by the orchestration code. -/
structure Host where
  id : Nat
  state : EntState
  reinstall_os : Bool
  deriving DecidableEq, Repr

/-- A ClusterHost association row: `models.ClusterHost`. -/
structure ClusterHost where
  cluster_id : Nat
  host_id : Nat
  state : EntState
  deriving DecidableEq, Repr

/-- The entity store: the three tables the orchestration code touches. -/
structure DB where
  clusters : List Cluster
  hosts : List Host
  clusterhosts : List ClusterHost
  deriving DecidableEq, Repr

/-- A principal: `models.User` as consumed by the Editability Guard. -/
structure User where
  id : Nat
  is_admin : Bool
  deriving DecidableEq, Repr

/-- Error taxonomy of the core (spec section 7). -/
inductive CompassError where
  | LockNotAcquired
  | NotEditable
  | NotFound
  | DeploymentBackendFailure
  deriving DecidableEq, Repr

/-- First cluster row with the given id (`utils.get_db_object`). -/
def findCluster (db : DB) (cluster_id : Nat) : Option Cluster :=
  db.clusters.find? (fun c => decide (c.id = cluster_id))

/-- First host row with the given id. -/
def findHost (db : DB) (host_id : Nat) : Option Host :=
  db.hosts.find? (fun h => decide (h.id = host_id))

/-- First association row joining the given cluster and host. -/
def findClusterHost (db : DB) (cluster_id host_id : Nat) : Option ClusterHost :=
  db.clusterhosts.find? (fun ch =>
    decide (ch.cluster_id = cluster_id ∧ ch.host_id = host_id))

/-! ## Editability Guard (`compass/db/api/cluster.py`) -/

/-- `_conditional_exception(cluster, exception_when_not_editable)`: raise
`Forbidden` when asked to, else report `False`. -/
def _conditional_exception (exception_when_not_editable : Bool) :
    Except CompassError Bool :=
  if exception_when_not_editable then
    .error .NotEditable
  else
    .ok false

/-- `is_cluster_editable(session, cluster, user, reinstall_distributed_system_set,
exception_when_not_editable)`: the Editability Guard, translated line by line
from `cluster.py`.  The trailing ownership check of the Python source is the
shared `ownership` branch. -/
def is_cluster_editable (cluster : Cluster) (user : User)
    (reinstall_distributed_system_set : Bool)
    (exception_when_not_editable : Bool) : Except CompassError Bool :=
  let ownership : Except CompassError Bool :=
    if user.is_admin = false ∧ cluster.creator_id ≠ user.id then
      _conditional_exception exception_when_not_editable
    else
      .ok true
  if reinstall_distributed_system_set then
    if cluster.state = .INSTALLING then
      _conditional_exception exception_when_not_editable
    else
      ownership
  else if cluster.reinstall_distributed_system = false then
    _conditional_exception exception_when_not_editable
  else
    ownership

/-- Modelled from the spec: the decision table of spec section 4.2, written
directly from the spec's words, to be compared with `is_cluster_editable`. -/
def editableSpecTable (cluster : Cluster) (user : User)
    (reinstall_intent : Bool) : Bool :=
  if reinstall_intent ∧ cluster.state = .INSTALLING then
    false
  else if ¬reinstall_intent ∧ cluster.reinstall_distributed_system = false then
    false
  else if user.is_admin = false ∧ cluster.creator_id ≠ user.id then
    false
  else
    true

/-- `del_cluster(deleter, cluster_id)`: fetch the cluster, run the Editability
Guard with its defaults (`reinstall_distributed_system_set=False`,
`exception_when_not_editable=True`), then delete the row.  Returned pair:
the outcome and the post-state of the store. -/
def del_cluster (db : DB) (deleter : User) (cluster_id : Nat) :
    Except CompassError Cluster × DB :=
  match findCluster db cluster_id with
  | none => (.error .NotFound, db)
  | some cluster =>
    match is_cluster_editable cluster deleter false true with
    | .error e => (.error e, db)
    | .ok _ =>
      (.ok cluster,
        { db with clusters := db.clusters.filter (fun c => decide (c.id ≠ cluster_id)) })

/-- C5: `is_cluster_editable` decides editability exactly per the spec's
decision table (`editableSpecTable`): when the table says editable it returns
`True`, otherwise it follows `_conditional_exception`. -/
theorem is_cluster_editable_eq_table (cluster : Cluster) (user : User)
    (rset exc : Bool) :
    is_cluster_editable cluster user rset exc =
      (if editableSpecTable cluster user rset then .ok true
       else _conditional_exception exc) := by
  cases rset <;>
    simp only [is_cluster_editable, editableSpecTable, Bool.false_eq_true,
      false_and, true_and, not_false_eq_true, not_true_eq_false, false_and,
      if_false, if_true] <;>
    split_ifs <;> simp_all [_conditional_exception]

/-- C9: on every input on which the check fails, `is_cluster_editable` raises
the `NotEditable` (Forbidden) error exactly when `exception_when_not_editable`
is true and returns `False` without raising when it is false; when the check
passes it returns `True` in both modes, never raising. -/
theorem is_cluster_editable_exception_mode (cluster : Cluster) (user : User)
    (rset : Bool) :
    if editableSpecTable cluster user rset then
      is_cluster_editable cluster user rset true = .ok true ∧
      is_cluster_editable cluster user rset false = .ok true
    else
      is_cluster_editable cluster user rset true = .error .NotEditable ∧
      is_cluster_editable cluster user rset false = .ok false := by
  cases rset <;>
    simp only [is_cluster_editable, editableSpecTable, Bool.false_eq_true,
      false_and, true_and, not_false_eq_true, not_true_eq_false,
      if_false, if_true] <;>
    split_ifs <;> simp_all [_conditional_exception]

/-- Sample cluster whose reinstall flag is down, in a quiescent state. -/
def sampleCluster : Cluster :=
  { id := 1, state := .SUCCESSFUL, reinstall_distributed_system := false,
    creator_id := 7, adapter_id := 3 }

/-- Sample admin principal (not the creator of `sampleCluster`). -/
def sampleAdmin : User := { id := 9, is_admin := true }

/-- Sample store holding only `sampleCluster`. -/
def sampleDB : DB := { clusters := [sampleCluster], hosts := [], clusterhosts := [] }

/-- C2 counterexample: an admin attempting `del_cluster` on a cluster whose
`reinstall_distributed_system` flag is false is rejected with the Forbidden
error and no mutation happens — the code does NOT let an admin (nor the
creator) bypass the reinstall-flag requirement, contrary to the claim. -/
theorem del_cluster_admin_flag_down_rejected_cex :
    sampleAdmin.is_admin = true ∧
    sampleCluster.reinstall_distributed_system = false ∧
    findCluster sampleDB 1 = some sampleCluster ∧
    (del_cluster sampleDB sampleAdmin 1).1 = .error .NotEditable ∧
    (del_cluster sampleDB sampleAdmin 1).2 = sampleDB :=
  ⟨rfl, rfl, rfl, rfl, rfl⟩

/-- C2 (amended): for a destructive mutation gated by the Editability Guard
(`del_cluster`), the mutation proceeds only when the entity's
`reinstall_distributed_system` flag is true AND the principal is an admin or
the entity's creator; when either requirement fails the call raises the
distinguishable `NotEditable` (Forbidden) error and performs no mutation. -/
theorem del_cluster_guard (db : DB) (user : User) (cluster_id : Nat)
    (cluster : Cluster) (hfind : findCluster db cluster_id = some cluster) :
    (cluster.reinstall_distributed_system = false ∨
        (user.is_admin = false ∧ cluster.creator_id ≠ user.id) →
      (del_cluster db user cluster_id).1 = .error .NotEditable ∧
      (del_cluster db user cluster_id).2 = db) ∧
    (cluster.reinstall_distributed_system = true ∧
        (user.is_admin = true ∨ cluster.creator_id = user.id) →
      (del_cluster db user cluster_id).1 = .ok cluster) := by
  constructor
  · intro hbad
    have : is_cluster_editable cluster user false true = .error .NotEditable := by
      simp only [is_cluster_editable, if_false, Bool.false_eq_true]
      rcases hbad with hflag | ⟨hadm, hcre⟩
      · simp [hflag, _conditional_exception]
      · split_ifs with h1 h2 <;> simp_all [_conditional_exception]
    simp [del_cluster, hfind, this]
  · rintro ⟨hflag, hown⟩
    have : is_cluster_editable cluster user false true = .ok true := by
      simp only [is_cluster_editable, Bool.false_eq_true]
      split_ifs with h1 h2 <;> simp_all [_conditional_exception]
    simp [del_cluster, hfind, this]

/-- Witness for the amended C2 theorem at a concrete rejected input. -/
theorem del_cluster_guard_witness :
    (del_cluster sampleDB sampleAdmin 1).1 = .error .NotEditable ∧
    (del_cluster sampleDB sampleAdmin 1).2 = sampleDB :=
  (del_cluster_guard sampleDB sampleAdmin 1 sampleCluster (by decide)).1
    (Or.inl (by decide))

/-! ## Orchestration entry points (`compass/actions/delete.py`) -/

/-- Observable steps of an orchestration run: lock traffic, entity-store
writes, snapshot reads and Deployment Backend calls. -/
inductive Event where
  | acquireLock (name : String) (timeout : Nat) (ok : Bool)
  | releaseLock (name : String)
  | setClusterHostState (cluster_id host_id : Nat) (state : EntState)
  | setHostState (host_id : Nat) (state : EntState)
  | setClusterState (cluster_id : Nat) (state : EntState)
  | setClusterReinstall (cluster_id : Nat) (value : Bool)
  | setHostReinstall (cluster_id host_id : Nat) (value : Bool)
  | getClusterInfo (cluster_id : Nat)
  | getAdapterInfo (cluster_id : Nat)
  | getHostsInfo (cluster_id : Nat) (host_ids : List Nat)
  | removeHosts (package_only del_whole_cluster : Bool)
  | deleteClusterRows (cluster_id : Nat) (host_ids : List Nat)
      (delete_underlying_host : Bool)
  | deleteClusterHostRow (cluster_id host_id : Nat)
      (delete_underlying_host : Bool)
  | deleteHostRow (host_id : Nat)
  deriving DecidableEq, Repr

/-- Environment of a run: whether `util.lock('serialized_action', timeout=100)`
yields a lock, and whether the Deployment Backend's `remove_hosts` succeeds
(when it does not, the first call raises). -/
structure Env where
  lockOk : Bool
  backendOk : Bool
  deriving DecidableEq, Repr

deriving instance DecidableEq for Except

/-- A store threaded together with the trace of events emitted so far. -/
abbrev St := DB × List Event

/-- Outcome of an orchestration entry point: the propagated result, the
post-state of the store and the full event trace. -/
structure Run where
  result : Except CompassError Unit
  db : DB
  trace : List Event
  deriving DecidableEq, Repr

/-- Modelled from the spec: `cluster_api.update_cluster_host_state(user,
cluster_id, host_id, state=...)` (absent from src/) — an Entity State Store
update of the ClusterHost association's state field. -/
def update_cluster_host_state (s : St) (cluster_id host_id : Nat)
    (state : EntState) : St :=
  ({ s.1 with clusterhosts := s.1.clusterhosts.map (fun ch =>
      if ch.cluster_id = cluster_id ∧ ch.host_id = host_id then
        { ch with state := state }
      else ch) },
   s.2 ++ [.setClusterHostState cluster_id host_id state])

/-- Modelled from the spec: `host_api.update_host_state(user, host_id,
state=...)` (absent from src/) — a store update of the Host's state field. -/
def update_host_state (s : St) (host_id : Nat) (state : EntState) : St :=
  ({ s.1 with hosts := s.1.hosts.map (fun h =>
      if h.id = host_id then { h with state := state } else h) },
   s.2 ++ [.setHostState host_id state])

/-- Modelled from the spec: `cluster_api.update_cluster_state(user,
cluster_id, state=...)` (absent from src/) — a store update of the Cluster's
state field. -/
def update_cluster_state (s : St) (cluster_id : Nat) (state : EntState) : St :=
  ({ s.1 with clusters := s.1.clusters.map (fun c =>
      if c.id = cluster_id then { c with state := state } else c) },
   s.2 ++ [.setClusterState cluster_id state])

/-- `cluster_api.update_cluster(updater, cluster_id, **kwargs)` from
`cluster.py`, at the call `delete_cluster` makes
(kwargs = `reinstall_distributed_system=True`): fetch the row (`NotFound` when
absent), run the Editability Guard with
`reinstall_distributed_system_set = kwargs.get('reinstall_distributed_system',
False) = true` and its default `exception_when_not_editable = True`, then
write the flag.  The permission check and the response-shaping decorators are
external collaborators. -/
def update_cluster (s : St) (updater : User) (cluster_id : Nat) :
    Except CompassError St :=
  match findCluster s.1 cluster_id with
  | none => .error .NotFound
  | some cluster =>
    match is_cluster_editable cluster updater true true with
    | .error e => .error e
    | .ok _ =>
      .ok ({ s.1 with clusters := s.1.clusters.map (fun c =>
          if c.id = cluster_id then
            { c with reinstall_distributed_system := true }
          else c) },
        s.2 ++ [.setClusterReinstall cluster_id true])

/-- Modelled from the spec: `cluster_api.update_cluster_host(user, cluster_id,
host_id, reinstall_os=True)` (absent from src/) — spec section 4.3 step 4 sets
the listed host's `reinstall_os` flag. -/
def update_cluster_host (s : St) (cluster_id host_id : Nat) (value : Bool) : St :=
  ({ s.1 with hosts := s.1.hosts.map (fun h =>
      if h.id = host_id then { h with reinstall_os := value } else h) },
   s.2 ++ [.setHostReinstall cluster_id host_id value])

/-- Modelled from the spec: `util.ActionHelper.get_cluster_info` — a snapshot
read, no store mutation. -/
def get_cluster_info (s : St) (cluster_id : Nat) : St :=
  (s.1, s.2 ++ [.getClusterInfo cluster_id])

/-- Modelled from the spec: `util.ActionHelper.get_adapter_info` — a snapshot
read derived from the cluster's adapter id, no store mutation. -/
def get_adapter_info (s : St) (cluster_id : Nat) : St :=
  (s.1, s.2 ++ [.getAdapterInfo cluster_id])

/-- Modelled from the spec: `util.ActionHelper.get_hosts_info` — a snapshot
read for exactly the listed hosts, no store mutation. -/
def get_hosts_info (s : St) (cluster_id : Nat) (host_ids : List Nat) : St :=
  (s.1, s.2 ++ [.getHostsInfo cluster_id host_ids])

/-- Modelled from the spec: `DeployManager.remove_hosts(package_only,
delete_cluster)` — all side effects are external; the call is recorded in the
trace and the store is untouched. -/
def deploy_remove_hosts (s : St) (package_only del_whole_cluster : Bool) : St :=
  (s.1, s.2 ++ [.removeHosts package_only del_whole_cluster])

/-- Modelled from the spec: the store part of `util.ActionHelper.delete_cluster`
(spec section 4.3 step 7) — drop the listed ClusterHost rows, delete the Host
rows when `delete_underlying_host`, and delete the Cluster row when no hosts
remain referencing it. -/
def terminal_delete_cluster_db (db : DB) (cluster_id : Nat)
    (host_id_list : List Nat) (delete_underlying_host : Bool) : DB :=
  let chs := db.clusterhosts.filter (fun ch =>
    decide (¬(ch.cluster_id = cluster_id ∧ ch.host_id ∈ host_id_list)))
  { clusters :=
      if (chs.filter (fun ch => decide (ch.cluster_id = cluster_id))).isEmpty then
        db.clusters.filter (fun c => decide (c.id ≠ cluster_id))
      else
        db.clusters,
    hosts :=
      if delete_underlying_host then
        db.hosts.filter (fun h => decide (h.id ∉ host_id_list))
      else
        db.hosts,
    clusterhosts := chs }

/-- Modelled from the spec: `util.ActionHelper.delete_cluster(cluster_id,
host_id_list, user, delete_underlying_host)` — the terminal deletion. -/
def ActionHelper.delete_cluster (s : St) (cluster_id : Nat)
    (host_id_list : List Nat) (delete_underlying_host : Bool) : St :=
  (terminal_delete_cluster_db s.1 cluster_id host_id_list delete_underlying_host,
   s.2 ++ [.deleteClusterRows cluster_id host_id_list delete_underlying_host])

/-- Modelled from the spec: `util.ActionHelper.delete_cluster_host` — drop the
single association row, and the underlying Host row when asked to. -/
def ActionHelper.delete_cluster_host (s : St) (cluster_id host_id : Nat)
    (delete_underlying_host : Bool) : St :=
  ({ s.1 with
      clusterhosts := s.1.clusterhosts.filter (fun ch =>
        decide (¬(ch.cluster_id = cluster_id ∧ ch.host_id = host_id))),
      hosts :=
        if delete_underlying_host then
          s.1.hosts.filter (fun h => decide (h.id ≠ host_id))
        else
          s.1.hosts },
   s.2 ++ [.deleteClusterHostRow cluster_id host_id delete_underlying_host])

/-- Modelled from the spec: `util.ActionHelper.delete_host(host_id, user)` —
the final host-level deletion. -/
def ActionHelper.delete_host (s : St) (host_id : Nat) : St :=
  ({ s.1 with hosts := s.1.hosts.filter (fun h => decide (h.id ≠ host_id)) },
   s.2 ++ [.deleteHostRow host_id])

/-- `delete_cluster(cluster_id, host_id_list, username,
delete_underlying_host)`: the cluster-deletion orchestration of `delete.py`,
translated statement by statement.  `user` stands for
`user_db.get_user_object(username)` (the principal resolver is external);
`Env` supplies the lock outcome and the Deployment Backend outcome; the lock
is scoped, so the release runs on every exit path, including the
`NotFound`/`NotEditable` error exits of the in-src `update_cluster` call of
step 4. -/
def delete_cluster (env : Env) (db : DB) (cluster_id : Nat)
    (host_id_list : List Nat) (user : User)
    (delete_underlying_host : Bool) : Run :=
  if env.lockOk then
    let s : St := (db, [Event.acquireLock "serialized_action" 100 true])
    let s := host_id_list.foldl (fun s host_id =>
      update_host_state
        (update_cluster_host_state s cluster_id host_id .ERROR)
        host_id .ERROR) s
    let s := update_cluster_state s cluster_id .ERROR
    match update_cluster s user cluster_id with
    | .error e =>
      { result := .error e, db := s.1,
        trace := s.2 ++ [.releaseLock "serialized_action"] }
    | .ok s =>
      let s := host_id_list.foldl (fun s host_id =>
        update_cluster_host s cluster_id host_id true) s
      let s := get_cluster_info s cluster_id
      let s := get_adapter_info s cluster_id
      let s := get_hosts_info s cluster_id host_id_list
      let s := deploy_remove_hosts s (!delete_underlying_host) true
      if env.backendOk then
        let s := ActionHelper.delete_cluster s cluster_id host_id_list
          delete_underlying_host
        { result := .ok (), db := s.1,
          trace := s.2 ++ [.releaseLock "serialized_action"] }
      else
        { result := .error .DeploymentBackendFailure, db := s.1,
          trace := s.2 ++ [.releaseLock "serialized_action"] }
  else
    { result := .error .LockNotAcquired, db := db,
      trace := [.acquireLock "serialized_action" 100 false,
                .releaseLock "serialized_action"] }

/-- `delete_cluster_host(cluster_id, host_id, username,
delete_underlying_host)`: single-association deletion of `delete.py`. -/
def delete_cluster_host (env : Env) (db : DB) (cluster_id host_id : Nat)
    (delete_underlying_host : Bool) : Run :=
  if env.lockOk then
    let s : St := (db, [Event.acquireLock "serialized_action" 100 true])
    let s := get_cluster_info s cluster_id
    let s := get_adapter_info s cluster_id
    let s := get_hosts_info s cluster_id [host_id]
    let s := deploy_remove_hosts s (!delete_underlying_host) false
    if env.backendOk then
      let s := ActionHelper.delete_cluster_host s cluster_id host_id
        delete_underlying_host
      { result := .ok (), db := s.1,
        trace := s.2 ++ [.releaseLock "serialized_action"] }
    else
      { result := .error .DeploymentBackendFailure, db := s.1,
        trace := s.2 ++ [.releaseLock "serialized_action"] }
  else
    { result := .error .LockNotAcquired, db := db,
      trace := [.acquireLock "serialized_action" 100 false,
                .releaseLock "serialized_action"] }

/-- The per-cluster removal loop of `delete_host`: for each cluster the host
belongs to, gather the snapshot and invoke
`remove_hosts(package_only=True, delete_cluster=False)`; a backend failure
aborts the loop at the first call. -/
def delete_host_loop (env : Env) (host_id : Nat) :
    List Nat → St → St × Bool
  | [], s => (s, true)
  | cluster_id :: rest, s =>
    let s := get_cluster_info s cluster_id
    let s := get_adapter_info s cluster_id
    let s := get_hosts_info s cluster_id [host_id]
    let s := deploy_remove_hosts s true false
    if env.backendOk then
      delete_host_loop env host_id rest s
    else
      (s, false)

/-- `delete_host(host_id, cluster_id_list, username)`: host deletion across
every cluster the host belongs to, translated from `delete.py`. -/
def delete_host (env : Env) (db : DB) (host_id : Nat)
    (cluster_id_list : List Nat) : Run :=
  if env.lockOk then
    let s : St := (db, [Event.acquireLock "serialized_action" 100 true])
    let p := delete_host_loop env host_id cluster_id_list s
    if p.2 then
      let s := ActionHelper.delete_host p.1 host_id
      { result := .ok (), db := s.1,
        trace := s.2 ++ [.releaseLock "serialized_action"] }
    else
      { result := .error .DeploymentBackendFailure, db := p.1.1,
        trace := p.1.2 ++ [.releaseLock "serialized_action"] }
  else
    { result := .error .LockNotAcquired, db := db,
      trace := [.acquireLock "serialized_action" 100 false,
                .releaseLock "serialized_action"] }

/-! ## Characterization lemmas -/

/-- Events of the failure-marking loop (spec section 4.3 step 2). -/
def markTrace (cluster_id : Nat) : List Nat → List Event
  | [] => []
  | host_id :: rest =>
    .setClusterHostState cluster_id host_id .ERROR ::
    .setHostState host_id .ERROR :: markTrace cluster_id rest

/-- Events of the reinstall-flag loop (spec section 4.3 step 4). -/
def reinstallTrace (cluster_id : Nat) (host_ids : List Nat) : List Event :=
  host_ids.map (fun host_id => .setHostReinstall cluster_id host_id true)

/-- Events of the per-cluster removal loop of `delete_host`. -/
def removalTrace (host_id : Nat) : List Nat → List Event
  | [] => []
  | cluster_id :: rest =>
    .getClusterInfo cluster_id :: .getAdapterInfo cluster_id ::
    .getHostsInfo cluster_id [host_id] :: .removeHosts true false ::
    removalTrace host_id rest

/-- The store after the failure-marking and reinstall-flagging phases of
`delete_cluster` (spec section 4.3 steps 2 to 4): the documented recovery
state. -/
def markedDB (db : DB) (cluster_id : Nat) (host_ids : List Nat) : DB :=
  { clusters := db.clusters.map (fun c =>
      if c.id = cluster_id then
        { c with state := .ERROR, reinstall_distributed_system := true }
      else c),
    hosts := db.hosts.map (fun h =>
      if h.id ∈ host_ids then
        { h with state := .ERROR, reinstall_os := true }
      else h),
    clusterhosts := db.clusterhosts.map (fun ch =>
      if ch.cluster_id = cluster_id ∧ ch.host_id ∈ host_ids then
        { ch with state := .ERROR }
      else ch) }

/-- The store after the failure-marking phase alone (spec section 4.3 steps
2 and 3): the mid-state at which the `update_cluster` guard of step 4 runs. -/
def markStateDB (db : DB) (cluster_id : Nat) (host_ids : List Nat) : DB :=
  { clusters := db.clusters.map (fun c =>
      if c.id = cluster_id then { c with state := .ERROR } else c),
    hosts := db.hosts.map (fun h =>
      if h.id ∈ host_ids then { h with state := .ERROR } else h),
    clusterhosts := db.clusterhosts.map (fun ch =>
      if ch.cluster_id = cluster_id ∧ ch.host_id ∈ host_ids then
        { ch with state := .ERROR }
      else ch) }

theorem find_map_pres {α : Type} (f : α → α) (p : α → Bool)
    (hp : ∀ x, p (f x) = p x) (l : List α) :
    (l.map f).find? p = (l.find? p).map f := by
  rw [List.find?_map]
  have hpf : p ∘ f = p := funext hp
  rw [hpf]

theorem find_markState_some (db : DB) (cid : Nat) (hids : List Nat)
    (c0 : Cluster) (hfc : findCluster db cid = some c0) :
    findCluster (markStateDB db cid hids) cid =
      some { c0 with state := .ERROR } := by
  unfold findCluster at hfc ⊢
  have hid : c0.id = cid := by simpa using List.find?_some hfc
  simp only [markStateDB]
  rw [find_map_pres _ _ (fun x => by by_cases hx : x.id = cid <;> simp [hx]),
    hfc]
  simp [hid]

theorem find_markState_none (db : DB) (cid : Nat) (hids : List Nat)
    (hfc : findCluster db cid = none) :
    findCluster (markStateDB db cid hids) cid = none := by
  unfold findCluster at hfc ⊢
  simp only [markStateDB]
  rw [find_map_pres _ _ (fun x => by by_cases hx : x.id = cid <;> simp [hx]),
    hfc]
  rfl

theorem guard_on_error_state (c0 : Cluster) (user : User)
    (hown : user.is_admin = true ∨ c0.creator_id = user.id) :
    is_cluster_editable { c0 with state := .ERROR } user true true =
      .ok true := by
  rcases hown with h | h <;> simp [is_cluster_editable, h]

theorem guard_on_error_state_fail (c0 : Cluster) (user : User)
    (ha : user.is_admin = false) (hcr : c0.creator_id ≠ user.id) :
    is_cluster_editable { c0 with state := .ERROR } user true true =
      .error .NotEditable := by
  simp [is_cluster_editable, ha, hcr, _conditional_exception]

theorem hosts_err_step (a : Nat) (t : List Nat) (l : List Host) :
    (l.map (fun h => if h.id = a then { h with state := .ERROR } else h)).map
        (fun h => if h.id ∈ t then { h with state := .ERROR } else h)
      = l.map (fun h => if h.id ∈ a :: t then { h with state := .ERROR } else h) := by
  induction l with
  | nil => rfl
  | cons x xs ih =>
    simp only [List.map_cons, List.cons.injEq]
    refine ⟨?_, ih⟩
    by_cases hx : x.id = a <;> by_cases ht : x.id ∈ t <;>
      simp [hx, ht, List.mem_cons]

theorem chs_err_step (cid a : Nat) (t : List Nat) (l : List ClusterHost) :
    (l.map (fun ch =>
        if ch.cluster_id = cid ∧ ch.host_id = a then { ch with state := .ERROR } else ch)).map
        (fun ch =>
          if ch.cluster_id = cid ∧ ch.host_id ∈ t then { ch with state := .ERROR } else ch)
      = l.map (fun ch =>
          if ch.cluster_id = cid ∧ ch.host_id ∈ a :: t then { ch with state := .ERROR } else ch) := by
  induction l with
  | nil => rfl
  | cons x xs ih =>
    simp only [List.map_cons, List.cons.injEq]
    refine ⟨?_, ih⟩
    by_cases hc : x.cluster_id = cid <;> by_cases hx : x.host_id = a <;>
      by_cases ht : x.host_id ∈ t <;> simp [hc, hx, ht, List.mem_cons]

theorem mark_fold (cluster_id : Nat) (host_ids : List Nat) :
    ∀ (db : DB) (tr : List Event),
      host_ids.foldl (fun s host_id =>
          update_host_state
            (update_cluster_host_state s cluster_id host_id .ERROR)
            host_id .ERROR) (db, tr)
        = ({ clusters := db.clusters,
             hosts := db.hosts.map (fun h =>
               if h.id ∈ host_ids then { h with state := .ERROR } else h),
             clusterhosts := db.clusterhosts.map (fun ch =>
               if ch.cluster_id = cluster_id ∧ ch.host_id ∈ host_ids then
                 { ch with state := .ERROR }
               else ch) },
           tr ++ markTrace cluster_id host_ids) := by
  induction host_ids with
  | nil =>
    intro db tr
    simp [markTrace]
  | cons a t ih =>
    intro db tr
    rw [List.foldl_cons]
    have hstep :
        update_host_state
            (update_cluster_host_state (db, tr) cluster_id a .ERROR) a .ERROR
          = (({ clusters := db.clusters,
                hosts := db.hosts.map (fun h =>
                  if h.id = a then { h with state := .ERROR } else h),
                clusterhosts := db.clusterhosts.map (fun ch =>
                  if ch.cluster_id = cluster_id ∧ ch.host_id = a then
                    { ch with state := .ERROR }
                  else ch) } : DB),
             tr ++ [.setClusterHostState cluster_id a .ERROR,
                    .setHostState a .ERROR]) := by
      simp [update_host_state, update_cluster_host_state]
    rw [hstep, ih]
    rw [hosts_err_step, chs_err_step]
    simp [markTrace, List.append_assoc]

theorem hosts_reins_step (host_ids : List Nat) (l : List Host) :
    (l.map (fun h => if h.id ∈ host_ids then { h with state := .ERROR } else h)).map
        (fun h => if h.id ∈ host_ids then { h with reinstall_os := true } else h)
      = l.map (fun h =>
          if h.id ∈ host_ids then { h with state := .ERROR, reinstall_os := true } else h) := by
  induction l with
  | nil => rfl
  | cons x xs ih =>
    simp only [List.map_cons, List.cons.injEq]
    refine ⟨?_, ih⟩
    by_cases hx : x.id ∈ host_ids <;> simp [hx]

theorem hosts_reins_one_step (a : Nat) (t : List Nat) (l : List Host) :
    (l.map (fun h => if h.id = a then { h with reinstall_os := true } else h)).map
        (fun h => if h.id ∈ t then { h with reinstall_os := true } else h)
      = l.map (fun h => if h.id ∈ a :: t then { h with reinstall_os := true } else h) := by
  induction l with
  | nil => rfl
  | cons x xs ih =>
    simp only [List.map_cons, List.cons.injEq]
    refine ⟨?_, ih⟩
    by_cases hx : x.id = a <;> by_cases ht : x.id ∈ t <;>
      simp [hx, ht, List.mem_cons]

theorem reinstall_fold (cluster_id : Nat) (host_ids : List Nat) :
    ∀ (db : DB) (tr : List Event),
      host_ids.foldl (fun s host_id =>
          update_cluster_host s cluster_id host_id true) (db, tr)
        = ({ db with hosts := db.hosts.map (fun h =>
              if h.id ∈ host_ids then { h with reinstall_os := true } else h) },
           tr ++ reinstallTrace cluster_id host_ids) := by
  induction host_ids with
  | nil =>
    intro db tr
    simp [reinstallTrace]
  | cons a t ih =>
    intro db tr
    rw [List.foldl_cons]
    have hstep :
        update_cluster_host (db, tr) cluster_id a true
          = (({ db with hosts := db.hosts.map (fun h =>
                if h.id = a then { h with reinstall_os := true } else h) } : DB),
             tr ++ [.setHostReinstall cluster_id a true]) := by
      simp [update_cluster_host]
    rw [hstep, ih]
    rw [hosts_reins_one_step]
    simp [reinstallTrace, List.append_assoc]

theorem clusters_err_reins_step (cid : Nat) (l : List Cluster) :
    (l.map (fun c => if c.id = cid then { c with state := .ERROR } else c)).map
        (fun c => if c.id = cid then { c with reinstall_distributed_system := true } else c)
      = l.map (fun c =>
          if c.id = cid then
            { c with state := .ERROR, reinstall_distributed_system := true }
          else c) := by
  induction l with
  | nil => rfl
  | cons x xs ih =>
    simp only [List.map_cons, List.cons.injEq]
    refine ⟨?_, ih⟩
    by_cases hx : x.id = cid <;> simp [hx]

theorem mark_and_state (cluster_id : Nat) (host_ids : List Nat) (db : DB)
    (tr : List Event) :
    update_cluster_state
      (host_ids.foldl (fun s host_id =>
          update_host_state
            (update_cluster_host_state s cluster_id host_id .ERROR)
            host_id .ERROR) (db, tr))
      cluster_id .ERROR
    = (markStateDB db cluster_id host_ids,
       tr ++ markTrace cluster_id host_ids ++
         [.setClusterState cluster_id .ERROR]) := by
  rw [mark_fold]
  simp [update_cluster_state, markStateDB, List.append_assoc]

theorem delete_cluster_run_ok (env : Env) (db : DB) (cluster_id : Nat)
    (host_id_list : List Nat) (user : User) (duh : Bool) (c0 : Cluster)
    (hl : env.lockOk = true) (hfc : findCluster db cluster_id = some c0)
    (hown : user.is_admin = true ∨ c0.creator_id = user.id) :
    delete_cluster env db cluster_id host_id_list user duh =
      { result :=
          if env.backendOk then .ok ()
          else .error .DeploymentBackendFailure,
        db :=
          if env.backendOk then
            terminal_delete_cluster_db (markedDB db cluster_id host_id_list)
              cluster_id host_id_list duh
          else
            markedDB db cluster_id host_id_list,
        trace :=
          Event.acquireLock "serialized_action" 100 true ::
            markTrace cluster_id host_id_list ++
            [.setClusterState cluster_id .ERROR,
             .setClusterReinstall cluster_id true] ++
            reinstallTrace cluster_id host_id_list ++
            [.getClusterInfo cluster_id, .getAdapterInfo cluster_id,
             .getHostsInfo cluster_id host_id_list,
             .removeHosts (!duh) true] ++
            (if env.backendOk then
              [.deleteClusterRows cluster_id host_id_list duh]
            else []) ++
            [.releaseLock "serialized_action"] } := by
  simp only [delete_cluster, hl, if_true]
  rw [mark_and_state]
  simp only [update_cluster,
    find_markState_some db cluster_id host_id_list c0 hfc,
    guard_on_error_state c0 user hown]
  simp only [markStateDB]
  rw [reinstall_fold]
  simp only [get_cluster_info, get_adapter_info, get_hosts_info,
    deploy_remove_hosts, ActionHelper.delete_cluster]
  cases hb : env.backendOk <;>
    (simp only [hb, Bool.false_eq_true, if_false, if_true];
     rw [clusters_err_reins_step, hosts_reins_step];
     simp [markedDB, List.append_assoc])

theorem delete_cluster_run_guardfail (env : Env) (db : DB) (cluster_id : Nat)
    (host_id_list : List Nat) (user : User) (duh : Bool) (c0 : Cluster)
    (hl : env.lockOk = true) (hfc : findCluster db cluster_id = some c0)
    (ha : user.is_admin = false) (hcr : c0.creator_id ≠ user.id) :
    delete_cluster env db cluster_id host_id_list user duh =
      { result := .error .NotEditable,
        db := markStateDB db cluster_id host_id_list,
        trace :=
          Event.acquireLock "serialized_action" 100 true ::
            markTrace cluster_id host_id_list ++
            [.setClusterState cluster_id .ERROR,
             .releaseLock "serialized_action"] } := by
  simp only [delete_cluster, hl, if_true]
  rw [mark_and_state]
  simp only [update_cluster,
    find_markState_some db cluster_id host_id_list c0 hfc,
    guard_on_error_state_fail c0 user ha hcr]
  simp [List.append_assoc]

theorem delete_cluster_run_notfound (env : Env) (db : DB) (cluster_id : Nat)
    (host_id_list : List Nat) (user : User) (duh : Bool)
    (hl : env.lockOk = true) (hfc : findCluster db cluster_id = none) :
    delete_cluster env db cluster_id host_id_list user duh =
      { result := .error .NotFound,
        db := markStateDB db cluster_id host_id_list,
        trace :=
          Event.acquireLock "serialized_action" 100 true ::
            markTrace cluster_id host_id_list ++
            [.setClusterState cluster_id .ERROR,
             .releaseLock "serialized_action"] } := by
  simp only [delete_cluster, hl, if_true]
  rw [mark_and_state]
  simp only [update_cluster,
    find_markState_none db cluster_id host_id_list hfc]
  simp [List.append_assoc]

/-- True for events that write or delete entity rows or fields. -/
def isEntityWrite : Event → Bool
  | .setClusterHostState _ _ _ => true
  | .setHostState _ _ => true
  | .setClusterState _ _ => true
  | .setClusterReinstall _ _ => true
  | .setHostReinstall _ _ _ => true
  | .deleteClusterRows _ _ _ => true
  | .deleteClusterHostRow _ _ _ => true
  | .deleteHostRow _ => true
  | _ => false

/-- True for Deployment Backend removal calls. -/
def isRemoveHosts : Event → Bool
  | .removeHosts _ _ => true
  | _ => false

/-- True for the final host-row deletion. -/
def isDeleteHostRow : Event → Bool
  | .deleteHostRow _ => true
  | _ => false

/-- True for state-setting store writes. -/
def isSetStateEvent : Event → Bool
  | .setClusterHostState _ _ _ => true
  | .setHostState _ _ => true
  | .setClusterState _ _ => true
  | _ => false

/-- True for reinstall-flag store writes. -/
def isSetReinstallEvent : Event → Bool
  | .setClusterReinstall _ _ => true
  | .setHostReinstall _ _ _ => true
  | _ => false

/-- Whether the "serialized_action" lock is still held after replaying a
trace: a successful acquire takes it, a release drops it. -/
def lockHeldAfter (trace : List Event) : Bool :=
  trace.foldl (fun held e =>
    match e with
    | .acquireLock _ _ ok => held || ok
    | .releaseLock _ => false
    | _ => held) false

theorem lockHeldAfter_release (l : List Event) (name : String) :
    lockHeldAfter (l ++ [.releaseLock name]) = false := by
  simp [lockHeldAfter, List.foldl_append]

theorem delete_host_loop_ok (env : Env) (host_id : Nat)
    (hb : env.backendOk = true) (cluster_id_list : List Nat) :
    ∀ (db : DB) (tr : List Event),
      delete_host_loop env host_id cluster_id_list (db, tr)
        = ((db, tr ++ removalTrace host_id cluster_id_list), true) := by
  induction cluster_id_list with
  | nil =>
    intro db tr
    simp [delete_host_loop, removalTrace]
  | cons a t ih =>
    intro db tr
    simp only [delete_host_loop, get_cluster_info, get_adapter_info,
      get_hosts_info, deploy_remove_hosts, hb, if_true]
    rw [ih]
    simp [removalTrace, List.append_assoc]

/-- C4: for each of the three entry points, when `util.lock` yields no lock,
the call raises `LockNotAcquired` immediately with zero side effects: the
store is untouched and the trace holds no entity write and no Deployment
Backend call. -/
theorem lock_failure_no_side_effects (env : Env) (db : DB)
    (cluster_id host_id : Nat) (host_id_list cluster_id_list : List Nat)
    (user : User) (duh : Bool) (hl : env.lockOk = false) :
    ((delete_cluster env db cluster_id host_id_list user duh).result =
        .error .LockNotAcquired ∧
      (delete_cluster env db cluster_id host_id_list user duh).db = db ∧
      (delete_cluster env db cluster_id host_id_list user duh).trace.all
        (fun e => !(isEntityWrite e || isRemoveHosts e)) = true) ∧
    ((delete_cluster_host env db cluster_id host_id duh).result =
        .error .LockNotAcquired ∧
      (delete_cluster_host env db cluster_id host_id duh).db = db ∧
      (delete_cluster_host env db cluster_id host_id duh).trace.all
        (fun e => !(isEntityWrite e || isRemoveHosts e)) = true) ∧
    ((delete_host env db host_id cluster_id_list).result =
        .error .LockNotAcquired ∧
      (delete_host env db host_id cluster_id_list).db = db ∧
      (delete_host env db host_id cluster_id_list).trace.all
        (fun e => !(isEntityWrite e || isRemoveHosts e)) = true) := by
  simp [delete_cluster, delete_cluster_host, delete_host, hl,
    isEntityWrite, isRemoveHosts]

/-- Witness for C4 at a concrete environment and store. -/
theorem lock_failure_no_side_effects_witness :
    (delete_cluster { lockOk := false, backendOk := true } sampleDB 1 [2]
        sampleAdmin false).result = .error .LockNotAcquired ∧
      (delete_cluster { lockOk := false, backendOk := true } sampleDB 1 [2]
        sampleAdmin false).db = sampleDB ∧
      (delete_cluster { lockOk := false, backendOk := true } sampleDB 1 [2]
        sampleAdmin false).trace.all
        (fun e => !(isEntityWrite e || isRemoveHosts e)) = true :=
  (lock_failure_no_side_effects { lockOk := false, backendOk := true }
    sampleDB 1 2 [2] [1] sampleAdmin false rfl).1

/-- C6: for each of the three entry points, the "serialized_action" lock is
not held once the call returns or raises, on every exit path (lock failure,
guard rejection out of step 4's `update_cluster` call, backend failure,
success alike). -/
theorem lock_always_released (env : Env) (db : DB)
    (cluster_id host_id : Nat) (host_id_list cluster_id_list : List Nat)
    (user : User) (duh : Bool) :
    lockHeldAfter
      (delete_cluster env db cluster_id host_id_list user duh).trace = false ∧
    lockHeldAfter (delete_cluster_host env db cluster_id host_id duh).trace = false ∧
    lockHeldAfter (delete_host env db host_id cluster_id_list).trace = false := by
  refine ⟨?_, ?_, ?_⟩
  · cases hl : env.lockOk
    · simp [delete_cluster, hl, lockHeldAfter]
    · simp only [delete_cluster, hl, if_true]
      split
      · exact lockHeldAfter_release _ _
      · split
        · exact lockHeldAfter_release _ _
        · exact lockHeldAfter_release _ _
  · cases hl : env.lockOk
    · simp [delete_cluster_host, hl, lockHeldAfter]
    · simp only [delete_cluster_host, hl, if_true]
      split
      · exact lockHeldAfter_release _ _
      · exact lockHeldAfter_release _ _
  · cases hl : env.lockOk
    · simp [delete_host, hl, lockHeldAfter]
    · simp only [delete_host, hl, if_true]
      split
      · exact lockHeldAfter_release _ _
      · exact lockHeldAfter_release _ _

theorem markTrace_count_chs (cid h : Nat) (l : List Nat) :
    (markTrace cid l).count (Event.setClusterHostState cid h .ERROR) = l.count h := by
  induction l with
  | nil => rfl
  | cons a t ih =>
    by_cases hah : h = a
    · subst hah; simp [markTrace, List.count_cons, ih]
    · simp [markTrace, List.count_cons, ih, hah]

theorem markTrace_count_shs (cid h : Nat) (l : List Nat) :
    (markTrace cid l).count (Event.setHostState h .ERROR) = l.count h := by
  induction l with
  | nil => rfl
  | cons a t ih =>
    by_cases hah : h = a
    · subst hah; simp [markTrace, List.count_cons, ih]
    · simp [markTrace, List.count_cons, ih, hah]

theorem markTrace_count_scs (cid cid' : Nat) (st : EntState) (l : List Nat) :
    (markTrace cid l).count (Event.setClusterState cid' st) = 0 := by
  induction l with
  | nil => rfl
  | cons a t ih => simp [markTrace, List.count_cons, ih]

theorem markTrace_count_rel (cid : Nat) (nm : String) (l : List Nat) :
    (markTrace cid l).count (Event.releaseLock nm) = 0 := by
  induction l with
  | nil => rfl
  | cons a t ih => simp [markTrace, List.count_cons, ih]

theorem reinstallTrace_count_not_reins (cid : Nat) (l : List Nat) (e : Event)
    (he : isSetReinstallEvent e = false) :
    (reinstallTrace cid l).count e = 0 := by
  induction l with
  | nil => rfl
  | cons a t ih =>
    simp only [reinstallTrace, List.map_cons, List.count_cons]
    rw [show (t.map fun host_id => Event.setHostReinstall cid host_id true).count e
        = (reinstallTrace cid t).count e from rfl, ih]
    by_cases hx : e = Event.setHostReinstall cid a true
    · subst hx; simp [isSetReinstallEvent] at he
    · have hx' : ¬Event.setHostReinstall cid a true = e := fun h => hx h.symm
      simp [hx']

theorem markTrace_sublist_pair (cid h : Nat) (l : List Nat) (hm : h ∈ l) :
    List.Sublist
      [Event.setClusterHostState cid h .ERROR, Event.setHostState h .ERROR]
      (markTrace cid l) := by
  induction l with
  | nil => cases hm
  | cons a t ih =>
    rcases List.mem_cons.mp hm with heq | hmem
    · subst heq
      exact .cons₂ _ (.cons₂ _ (List.nil_sublist _))
    · exact .cons _ (.cons _ (ih hmem))

theorem full_trace_sublist (cid h : Nat) (hids : List Nat) (duh : Bool)
    (condSeg : List Event) (hm : h ∈ hids) :
    List.Sublist
      [Event.setClusterHostState cid h .ERROR, .setHostState h .ERROR,
       .setClusterState cid .ERROR, .releaseLock "serialized_action"]
      (Event.acquireLock "serialized_action" 100 true ::
        markTrace cid hids ++
        [.setClusterState cid .ERROR, .setClusterReinstall cid true] ++
        reinstallTrace cid hids ++
        [.getClusterInfo cid, .getAdapterInfo cid, .getHostsInfo cid hids,
         .removeHosts (!duh) true] ++
        condSeg ++ [.releaseLock "serialized_action"]) := by
  have h1 := markTrace_sublist_pair cid h hids hm
  have h2 : List.Sublist [Event.setClusterState cid .ERROR]
      ([Event.setClusterState cid .ERROR, .setClusterReinstall cid true] ++
        (reinstallTrace cid hids ++
          ([.getClusterInfo cid, .getAdapterInfo cid, .getHostsInfo cid hids,
            .removeHosts (!duh) true] ++ condSeg))) :=
    (List.Sublist.cons₂ _ (List.nil_sublist _)).trans
      (List.sublist_append_left _ _)
  have h3 : List.Sublist [Event.releaseLock "serialized_action"]
      [Event.releaseLock "serialized_action"] := List.Sublist.refl _
  have total := (h1.append (h2.append h3)).cons
    (Event.acquireLock "serialized_action" 100 true)
  simpa [List.append_assoc] using total

theorem short_trace_sublist (cid h : Nat) (hids : List Nat) (hm : h ∈ hids) :
    List.Sublist
      [Event.setClusterHostState cid h .ERROR, .setHostState h .ERROR,
       .setClusterState cid .ERROR, .releaseLock "serialized_action"]
      (Event.acquireLock "serialized_action" 100 true ::
        markTrace cid hids ++
        [.setClusterState cid .ERROR, .releaseLock "serialized_action"]) := by
  have h1 := markTrace_sublist_pair cid h hids hm
  have h2 : List.Sublist
      [Event.setClusterState cid .ERROR,
       Event.releaseLock "serialized_action"]
      [Event.setClusterState cid .ERROR,
       Event.releaseLock "serialized_action"] := List.Sublist.refl _
  have total := (h1.append h2).cons
    (Event.acquireLock "serialized_action" 100 true)
  simpa [List.append_assoc] using total

/-- C3: in every lock-acquired execution of `delete_cluster` — guard
rejection at step 4, not-found, backend failure and success alike — the
failure-marking writes are ordered: for each listed host, the ClusterHost
association is set to ERROR strictly before that Host is, the Cluster is set
to ERROR only after every listed host transitioned, and all of it happens
before the lock release — each of these writes occurring exactly once in the
trace, so the sublist pins their unique positions. -/
theorem delete_cluster_error_write_order (env : Env) (db : DB)
    (cluster_id : Nat) (host_id_list : List Nat) (user : User) (duh : Bool)
    (host_id : Nat)
    (hl : env.lockOk = true) (hnd : host_id_list.Nodup)
    (hmem : host_id ∈ host_id_list) :
    List.Sublist
      [Event.setClusterHostState cluster_id host_id .ERROR,
       .setHostState host_id .ERROR,
       .setClusterState cluster_id .ERROR,
       .releaseLock "serialized_action"]
      (delete_cluster env db cluster_id host_id_list user duh).trace ∧
    (delete_cluster env db cluster_id host_id_list user duh).trace.count
      (Event.setClusterHostState cluster_id host_id .ERROR) = 1 ∧
    (delete_cluster env db cluster_id host_id_list user duh).trace.count
      (Event.setHostState host_id .ERROR) = 1 ∧
    (delete_cluster env db cluster_id host_id_list user duh).trace.count
      (Event.setClusterState cluster_id .ERROR) = 1 ∧
    (delete_cluster env db cluster_id host_id_list user duh).trace.count
      (Event.releaseLock "serialized_action") = 1 := by
  have hcnt : host_id_list.count host_id = 1 :=
    List.count_eq_one_of_mem hnd hmem
  cases hfc : findCluster db cluster_id with
  | none =>
    rw [delete_cluster_run_notfound env db cluster_id host_id_list user duh
      hl hfc]
    refine ⟨short_trace_sublist _ _ _ hmem, ?_, ?_, ?_, ?_⟩ <;>
      simp [List.count_append, List.count_cons, markTrace_count_chs,
        markTrace_count_shs, markTrace_count_scs, markTrace_count_rel, hcnt]
  | some c0 =>
    by_cases hown : user.is_admin = true ∨ c0.creator_id = user.id
    · rw [delete_cluster_run_ok env db cluster_id host_id_list user duh c0
        hl hfc hown]
      refine ⟨full_trace_sublist _ _ _ _ _ hmem, ?_, ?_, ?_, ?_⟩ <;>
        cases hb : env.backendOk <;>
        simp [hb, List.count_append, List.count_cons, markTrace_count_chs,
          markTrace_count_shs, markTrace_count_scs, markTrace_count_rel,
          reinstallTrace_count_not_reins, isSetReinstallEvent, hcnt]
    · push_neg at hown
      obtain ⟨ha, hcr⟩ := hown
      rw [delete_cluster_run_guardfail env db cluster_id host_id_list user
        duh c0 hl hfc (by simpa using ha) hcr]
      refine ⟨short_trace_sublist _ _ _ hmem, ?_, ?_, ?_, ?_⟩ <;>
        simp [List.count_append, List.count_cons, markTrace_count_chs,
          markTrace_count_shs, markTrace_count_scs, markTrace_count_rel, hcnt]

/-- Witness for C3 at a concrete environment, store and host list. -/
theorem delete_cluster_error_write_order_witness :
    List.Sublist
      [Event.setClusterHostState 1 2 .ERROR, .setHostState 2 .ERROR,
       .setClusterState 1 .ERROR, .releaseLock "serialized_action"]
      (delete_cluster { lockOk := true, backendOk := false }
        sampleDB 1 [2, 3] sampleAdmin false).trace ∧
    (delete_cluster { lockOk := true, backendOk := false }
      sampleDB 1 [2, 3] sampleAdmin false).trace.count
      (Event.setClusterHostState 1 2 .ERROR) = 1 ∧
    (delete_cluster { lockOk := true, backendOk := false }
      sampleDB 1 [2, 3] sampleAdmin false).trace.count
      (Event.setHostState 2 .ERROR) = 1 ∧
    (delete_cluster { lockOk := true, backendOk := false }
      sampleDB 1 [2, 3] sampleAdmin false).trace.count
      (Event.setClusterState 1 .ERROR) = 1 ∧
    (delete_cluster { lockOk := true, backendOk := false }
      sampleDB 1 [2, 3] sampleAdmin false).trace.count
      (Event.releaseLock "serialized_action") = 1 :=
  delete_cluster_error_write_order { lockOk := true, backendOk := false }
    sampleDB 1 [2, 3] sampleAdmin false 2 rfl (by decide) (by decide)

theorem markedDB_find_cluster (db : DB) (cid : Nat) (hids : List Nat)
    (hc : (findCluster db cid).isSome = true) :
    ∃ c, findCluster (markedDB db cid hids) cid = some c ∧
      c.state = .ERROR ∧ c.reinstall_distributed_system = true := by
  unfold findCluster at hc ⊢
  obtain ⟨c0, hc0⟩ := Option.isSome_iff_exists.mp hc
  have hid : c0.id = cid := by simpa using List.find?_some hc0
  refine ⟨{ c0 with state := .ERROR, reinstall_distributed_system := true },
    ?_, rfl, rfl⟩
  simp only [markedDB]
  rw [find_map_pres _ _ (fun x => by by_cases hx : x.id = cid <;> simp [hx]),
    hc0]
  simp [hid]

theorem markedDB_find_host (db : DB) (cid h : Nat) (hids : List Nat)
    (hmem : h ∈ hids) (hh : (findHost db h).isSome = true) :
    ∃ x, findHost (markedDB db cid hids) h = some x ∧
      x.state = .ERROR ∧ x.reinstall_os = true := by
  unfold findHost at hh ⊢
  obtain ⟨h0, hh0⟩ := Option.isSome_iff_exists.mp hh
  have hid : h0.id = h := by simpa using List.find?_some hh0
  refine ⟨{ h0 with state := .ERROR, reinstall_os := true }, ?_, rfl, rfl⟩
  simp only [markedDB]
  rw [find_map_pres _ _
      (fun x => by by_cases hx : x.id ∈ hids <;> simp [hx]), hh0]
  simp [hid, hmem]

theorem markedDB_find_ch (db : DB) (cid h : Nat) (hids : List Nat)
    (hch : (findClusterHost db cid h).isSome = true) :
    (findClusterHost (markedDB db cid hids) cid h).isSome = true := by
  unfold findClusterHost at hch ⊢
  simp only [markedDB]
  rw [find_map_pres _ _
      (fun x => by
        by_cases hx : x.cluster_id = cid ∧ x.host_id ∈ hids <;> simp [hx])]
  simpa using hch

theorem not_mem_markTrace_remove (cid : Nat) (l : List Nat) (po dc : Bool) :
    Event.removeHosts po dc ∉ markTrace cid l := by
  induction l with
  | nil => simp [markTrace]
  | cons a t ih => simp [markTrace, ih]

/-- C1: in every call of `delete_cluster` in which the Deployment Backend's
`remove_hosts` call raises (the backend fails and the run's trace shows the
call was made, so the step-4 guard inside the in-src `update_cluster` passed),
the failure propagates, the terminal deletion never runs (the Cluster row,
every listed Host row and every listed ClusterHost row are still present),
and the post-state has the Cluster and every listed host in state ERROR with
`reinstall_distributed_system` respectively `reinstall_os` set to true. -/
theorem delete_cluster_backend_failure_post (env : Env) (db : DB)
    (cluster_id : Nat) (host_id_list : List Nat) (user : User) (duh : Bool)
    (hl : env.lockOk = true) (hb : env.backendOk = false)
    (hcall : Event.removeHosts (!duh) true ∈
      (delete_cluster env db cluster_id host_id_list user duh).trace)
    (hc : (findCluster db cluster_id).isSome = true)
    (hh : ∀ host_id ∈ host_id_list, (findHost db host_id).isSome = true)
    (hch : ∀ host_id ∈ host_id_list,
      (findClusterHost db cluster_id host_id).isSome = true) :
    (delete_cluster env db cluster_id host_id_list user duh).result =
      .error .DeploymentBackendFailure ∧
    (∃ c, findCluster
        (delete_cluster env db cluster_id host_id_list user duh).db
        cluster_id = some c ∧
      c.state = .ERROR ∧ c.reinstall_distributed_system = true) ∧
    (∀ host_id ∈ host_id_list, ∃ x,
      findHost (delete_cluster env db cluster_id host_id_list user duh).db
        host_id = some x ∧
      x.state = .ERROR ∧ x.reinstall_os = true) ∧
    (∀ host_id ∈ host_id_list,
      (findClusterHost
        (delete_cluster env db cluster_id host_id_list user duh).db
        cluster_id host_id).isSome = true) := by
  obtain ⟨c0, hfc⟩ := Option.isSome_iff_exists.mp hc
  by_cases hown : user.is_admin = true ∨ c0.creator_id = user.id
  · rw [delete_cluster_run_ok env db cluster_id host_id_list user duh c0
      hl hfc hown]
    simp only [hb, Bool.false_eq_true, if_false]
    exact ⟨trivial, markedDB_find_cluster db cluster_id host_id_list hc,
      fun host_id hm => markedDB_find_host db cluster_id host_id host_id_list
        hm (hh host_id hm),
      fun host_id hm => markedDB_find_ch db cluster_id host_id host_id_list
        (hch host_id hm)⟩
  · push_neg at hown
    obtain ⟨ha, hcr⟩ := hown
    rw [delete_cluster_run_guardfail env db cluster_id host_id_list user duh
      c0 hl hfc (by simpa using ha) hcr] at hcall
    simp [List.mem_cons, List.mem_append, not_mem_markTrace_remove] at hcall

/-- Environment in which the lock is acquired and the backend succeeds. -/
def envOk : Env := { lockOk := true, backendOk := true }

/-- Environment in which the lock is acquired but the backend raises. -/
def envBackendFail : Env := { lockOk := true, backendOk := false }

/-- Sample store: cluster 1 with member hosts 2 and 3, plus an unrelated
cluster 5, host 6 and association (5, 6). -/
def sampleDB2 : DB :=
  { clusters :=
      [{ id := 1, state := .SUCCESSFUL, reinstall_distributed_system := false,
         creator_id := 7, adapter_id := 3 },
       { id := 5, state := .SUCCESSFUL, reinstall_distributed_system := false,
         creator_id := 7, adapter_id := 3 }],
    hosts :=
      [{ id := 2, state := .SUCCESSFUL, reinstall_os := false },
       { id := 3, state := .SUCCESSFUL, reinstall_os := false },
       { id := 6, state := .SUCCESSFUL, reinstall_os := false }],
    clusterhosts :=
      [{ cluster_id := 1, host_id := 2, state := .SUCCESSFUL },
       { cluster_id := 1, host_id := 3, state := .SUCCESSFUL },
       { cluster_id := 5, host_id := 6, state := .SUCCESSFUL }] }

/-- Witness for C1 at a concrete failing environment and populated store
(the admin principal passes the step-4 guard, so the backend call occurs). -/
theorem delete_cluster_backend_failure_post_witness :
    (delete_cluster envBackendFail sampleDB2 1 [2, 3] sampleAdmin
        false).result = .error .DeploymentBackendFailure ∧
    (∃ c, findCluster
        (delete_cluster envBackendFail sampleDB2 1 [2, 3] sampleAdmin
          false).db 1 = some c ∧
      c.state = .ERROR ∧ c.reinstall_distributed_system = true) ∧
    (∀ host_id ∈ [2, 3], ∃ x,
      findHost (delete_cluster envBackendFail sampleDB2 1 [2, 3] sampleAdmin
        false).db host_id = some x ∧
      x.state = .ERROR ∧ x.reinstall_os = true) ∧
    (∀ host_id ∈ [2, 3],
      (findClusterHost
        (delete_cluster envBackendFail sampleDB2 1 [2, 3] sampleAdmin
          false).db 1 host_id).isSome = true) :=
  delete_cluster_backend_failure_post envBackendFail sampleDB2 1 [2, 3]
    sampleAdmin false rfl rfl (by decide) (by decide) (by decide) (by decide)

/-- C7 counterexample: in `delete_cluster_host` the code invokes the backend
with `delete_cluster=False` — the trace of a concrete successful run contains
`removeHosts package_only=true del_whole_cluster=false` and never the
`del_whole_cluster=true` call the claim demands. -/
theorem delete_cluster_host_flag_cex :
    Event.removeHosts true true ∉
      (delete_cluster_host envOk sampleDB2 1 2 false).trace ∧
    Event.removeHosts true false ∈
      (delete_cluster_host envOk sampleDB2 1 2 false).trace := by
  decide

/-- C7 (amended): `delete_cluster_host` repeats steps 1, 5, 6, 7, 8 of the
`delete_cluster` sequence for exactly the one listed host, invoking
`remove_hosts` with `package_only = not delete_underlying_host` and
`delete_cluster = false`, then deletes the single association — never setting
any host or cluster state and never setting any reinstall flag. -/
theorem delete_cluster_host_sequence (env : Env) (db : DB)
    (cluster_id host_id : Nat) (duh : Bool)
    (hl : env.lockOk = true) (hb : env.backendOk = true) :
    (delete_cluster_host env db cluster_id host_id duh).trace =
      [Event.acquireLock "serialized_action" 100 true,
       .getClusterInfo cluster_id, .getAdapterInfo cluster_id,
       .getHostsInfo cluster_id [host_id],
       .removeHosts (!duh) false,
       .deleteClusterHostRow cluster_id host_id duh,
       .releaseLock "serialized_action"] ∧
    (delete_cluster_host env db cluster_id host_id duh).trace.all
      (fun e => !(isSetStateEvent e || isSetReinstallEvent e)) = true := by
  have htr :
      (delete_cluster_host env db cluster_id host_id duh).trace =
        [Event.acquireLock "serialized_action" 100 true,
         .getClusterInfo cluster_id, .getAdapterInfo cluster_id,
         .getHostsInfo cluster_id [host_id],
         .removeHosts (!duh) false,
         .deleteClusterHostRow cluster_id host_id duh,
         .releaseLock "serialized_action"] := by
    simp [delete_cluster_host, hl, hb, get_cluster_info, get_adapter_info,
      get_hosts_info, deploy_remove_hosts, ActionHelper.delete_cluster_host]
  refine ⟨htr, ?_⟩
  rw [htr]
  simp [isSetStateEvent, isSetReinstallEvent]

/-- Witness for the amended C7 theorem at a concrete input. -/
theorem delete_cluster_host_sequence_witness :
    (delete_cluster_host envOk sampleDB2 1 2 false).trace =
      [Event.acquireLock "serialized_action" 100 true,
       .getClusterInfo 1, .getAdapterInfo 1, .getHostsInfo 1 [2],
       .removeHosts (!false) false, .deleteClusterHostRow 1 2 false,
       .releaseLock "serialized_action"] ∧
    (delete_cluster_host envOk sampleDB2 1 2 false).trace.all
      (fun e => !(isSetStateEvent e || isSetReinstallEvent e)) = true :=
  delete_cluster_host_sequence envOk sampleDB2 1 2 false rfl rfl

theorem removalTrace_filter_remove (hid : Nat) (cids : List Nat) :
    (removalTrace hid cids).filter isRemoveHosts
      = List.replicate cids.length (Event.removeHosts true false) := by
  induction cids with
  | nil => rfl
  | cons a t ih =>
    simp [removalTrace, List.filter_cons, isRemoveHosts, ih,
      List.replicate_succ]

theorem removalTrace_filter_delete (hid : Nat) (cids : List Nat) :
    (removalTrace hid cids).filter isDeleteHostRow = [] := by
  induction cids with
  | nil => rfl
  | cons a t ih =>
    simp [removalTrace, List.filter_cons, isDeleteHostRow, ih]

/-- C8: on a successful run, `delete_host` issues exactly one backend removal
call per listed cluster, each with `package_only = true` and
`delete_cluster = false`, and all of them strictly before the single final
deletion of the host row. -/
theorem delete_host_removal_calls (env : Env) (db : DB) (host_id : Nat)
    (cluster_id_list : List Nat)
    (hl : env.lockOk = true) (hb : env.backendOk = true) :
    ∃ pre,
      (delete_host env db host_id cluster_id_list).trace =
        pre ++ [Event.deleteHostRow host_id,
                .releaseLock "serialized_action"] ∧
      pre.filter isRemoveHosts =
        List.replicate cluster_id_list.length (Event.removeHosts true false) ∧
      pre.filter isDeleteHostRow = [] := by
  refine ⟨Event.acquireLock "serialized_action" 100 true ::
    removalTrace host_id cluster_id_list, ?_, ?_, ?_⟩
  · simp only [delete_host, hl, if_true]
    rw [delete_host_loop_ok env host_id hb cluster_id_list]
    simp [ActionHelper.delete_host, List.append_assoc]
  · simp [List.filter_cons, isRemoveHosts, removalTrace_filter_remove]
  · simp [List.filter_cons, isDeleteHostRow, removalTrace_filter_delete]

/-- Witness for C8: a host shared by two clusters at a concrete input. -/
theorem delete_host_removal_calls_witness :
    ∃ pre,
      (delete_host envOk sampleDB2 2 [1, 5]).trace =
        pre ++ [Event.deleteHostRow 2, .releaseLock "serialized_action"] ∧
      pre.filter isRemoveHosts =
        List.replicate ([1, 5] : List Nat).length
          (Event.removeHosts true false) ∧
      pre.filter isDeleteHostRow = [] :=
  delete_host_removal_calls envOk sampleDB2 2 [1, 5] rfl rfl

theorem mem_markedDB_cluster {db : DB} {cid : Nat} {hids : List Nat}
    {c : Cluster} (hc : c ∈ db.clusters) (hne : c.id ≠ cid) :
    c ∈ (markedDB db cid hids).clusters := by
  simp only [markedDB]
  exact List.mem_map.mpr ⟨c, hc, by simp [hne]⟩

theorem mem_markedDB_host {db : DB} {cid : Nat} {hids : List Nat}
    {h : Host} (hh : h ∈ db.hosts) (hne : h.id ∉ hids) :
    h ∈ (markedDB db cid hids).hosts := by
  simp only [markedDB]
  exact List.mem_map.mpr ⟨h, hh, by simp [hne]⟩

theorem mem_markedDB_ch {db : DB} {cid : Nat} {hids : List Nat}
    {ch : ClusterHost} (hch : ch ∈ db.clusterhosts)
    (hne : ¬(ch.cluster_id = cid ∧ ch.host_id ∈ hids)) :
    ch ∈ (markedDB db cid hids).clusterhosts := by
  simp only [markedDB]
  exact List.mem_map.mpr ⟨ch, hch, by simp [hne]⟩

theorem mem_terminal_cluster {db : DB} {cid : Nat} {hids : List Nat}
    {duh : Bool} {c : Cluster} (hc : c ∈ db.clusters) (hne : c.id ≠ cid) :
    c ∈ (terminal_delete_cluster_db db cid hids duh).clusters := by
  simp only [terminal_delete_cluster_db]
  split_ifs with h
  · exact List.mem_filter.mpr ⟨hc, by simp [hne]⟩
  · exact hc

theorem mem_terminal_host {db : DB} {cid : Nat} {hids : List Nat}
    {duh : Bool} {h : Host} (hh : h ∈ db.hosts) (hne : h.id ∉ hids) :
    h ∈ (terminal_delete_cluster_db db cid hids duh).hosts := by
  simp only [terminal_delete_cluster_db]
  split_ifs with hd
  · exact List.mem_filter.mpr ⟨hh, by simp [hne]⟩
  · exact hh

theorem mem_terminal_ch {db : DB} {cid : Nat} {hids : List Nat}
    {duh : Bool} {ch : ClusterHost} (hch : ch ∈ db.clusterhosts)
    (hne : ¬(ch.cluster_id = cid ∧ ch.host_id ∈ hids)) :
    ch ∈ (terminal_delete_cluster_db db cid hids duh).clusterhosts := by
  simp only [terminal_delete_cluster_db]
  exact List.mem_filter.mpr ⟨hch, by simp [hne]⟩

theorem mem_markStateDB_cluster {db : DB} {cid : Nat} {hids : List Nat}
    {c : Cluster} (hc : c ∈ db.clusters) (hne : c.id ≠ cid) :
    c ∈ (markStateDB db cid hids).clusters := by
  simp only [markStateDB]
  exact List.mem_map.mpr ⟨c, hc, by simp [hne]⟩

theorem mem_markStateDB_host {db : DB} {cid : Nat} {hids : List Nat}
    {h : Host} (hh : h ∈ db.hosts) (hne : h.id ∉ hids) :
    h ∈ (markStateDB db cid hids).hosts := by
  simp only [markStateDB]
  exact List.mem_map.mpr ⟨h, hh, by simp [hne]⟩

theorem mem_markStateDB_ch {db : DB} {cid : Nat} {hids : List Nat}
    {ch : ClusterHost} (hch : ch ∈ db.clusterhosts)
    (hne : ¬(ch.cluster_id = cid ∧ ch.host_id ∈ hids)) :
    ch ∈ (markStateDB db cid hids).clusterhosts := by
  simp only [markStateDB]
  exact List.mem_map.mpr ⟨ch, hch, by simp [hne]⟩

/-- C10: `delete_cluster` never touches entities outside its target set — any
cluster other than the target, any host outside the listed hosts and any
association not joining the target cluster to a listed host keeps its row and
every field, in success, backend-failure, step-4 guard-rejection/not-found
and lock-failure outcomes alike. -/
theorem delete_cluster_frame (env : Env) (db : DB) (cluster_id : Nat)
    (host_id_list : List Nat) (user : User) (duh : Bool) :
    (∀ c ∈ db.clusters, c.id ≠ cluster_id →
      c ∈ (delete_cluster env db cluster_id host_id_list user duh).db.clusters) ∧
    (∀ h ∈ db.hosts, h.id ∉ host_id_list →
      h ∈ (delete_cluster env db cluster_id host_id_list user duh).db.hosts) ∧
    (∀ ch ∈ db.clusterhosts,
      ¬(ch.cluster_id = cluster_id ∧ ch.host_id ∈ host_id_list) →
      ch ∈ (delete_cluster env db cluster_id host_id_list user
        duh).db.clusterhosts) := by
  cases hl : env.lockOk
  · refine ⟨fun c hc hne => ?_, fun h hh hne => ?_, fun ch hch hne => ?_⟩ <;>
      (simp only [delete_cluster, hl, Bool.false_eq_true, if_false]) <;>
      assumption
  · cases hfc : findCluster db cluster_id with
    | none =>
      rw [delete_cluster_run_notfound env db cluster_id host_id_list user
        duh hl hfc]
      exact ⟨fun c hc hne => mem_markStateDB_cluster hc hne,
        fun h hh hne => mem_markStateDB_host hh hne,
        fun ch hch hne => mem_markStateDB_ch hch hne⟩
    | some c0 =>
      by_cases hown : user.is_admin = true ∨ c0.creator_id = user.id
      · rw [delete_cluster_run_ok env db cluster_id host_id_list user duh c0
          hl hfc hown]
        cases hb : env.backendOk <;>
          simp only [hb, Bool.false_eq_true, if_false, if_true]
        · exact ⟨fun c hc hne => mem_markedDB_cluster hc hne,
            fun h hh hne => mem_markedDB_host hh hne,
            fun ch hch hne => mem_markedDB_ch hch hne⟩
        · exact ⟨fun c hc hne =>
              mem_terminal_cluster (mem_markedDB_cluster hc hne) hne,
            fun h hh hne => mem_terminal_host (mem_markedDB_host hh hne) hne,
            fun ch hch hne => mem_terminal_ch (mem_markedDB_ch hch hne) hne⟩
      · push_neg at hown
        obtain ⟨ha, hcr⟩ := hown
        rw [delete_cluster_run_guardfail env db cluster_id host_id_list user
          duh c0 hl hfc (by simpa using ha) hcr]
        exact ⟨fun c hc hne => mem_markStateDB_cluster hc hne,
          fun h hh hne => mem_markStateDB_host hh hne,
          fun ch hch hne => mem_markStateDB_ch hch hne⟩

/-- Witness for C10: in a successful concrete run deleting cluster 1 with
host 2, the unrelated cluster 5 survives with all its fields. -/
theorem delete_cluster_frame_witness :
    ({ id := 5, state := .SUCCESSFUL, reinstall_distributed_system := false,
       creator_id := 7, adapter_id := 3 } : Cluster) ∈
      (delete_cluster envOk sampleDB2 1 [2] sampleAdmin false).db.clusters :=
  (delete_cluster_frame envOk sampleDB2 1 [2] sampleAdmin false).1
    { id := 5, state := .SUCCESSFUL, reinstall_distributed_system := false,
      creator_id := 7, adapter_id := 3 } (by decide) (by decide)
